import Mathlib

/-!
Verification development for the recitale incremental-build cache and
two-phase parallel rendering pipeline (recitale/utils.py and
recitale/recitale.py), as a shallow embedding in Lean.

Python mappings are modelled as association lists with unique keys, Python
values as the inductive `PyVal`, files on disk as an mtime table, and every
rendering function as a pure function that also returns the list of observable
events (cache checks, saves, resizes, external commands, cache records,
progress-queue puts, log lines) it performs, in order.
-/

/-- A Python value as it appears in a recitale options/parameters mapping. -/
inductive PyVal where
  | str (s : String)
  | num (n : Int)
  | bool (b : Bool)
  | pynone
deriving DecidableEq, Repr

/-- Python truthiness of a `PyVal`. -/
def PyVal.truthy : PyVal → Bool
  | .str s => s ≠ ""
  | .num n => n ≠ 0
  | .bool b => b
  | .pynone => false

/-- A Python dict with string keys, modelled as an association list
(the first binding for a key is the authoritative one). -/
abbrev Dict := List (String × PyVal)

/-- Python `d[k]` as an `Option`: the value bound to `k` in `d`, if any. -/
def dictLookup (k : String) : Dict → Option PyVal
  | [] => Option.none
  | p :: tl => if p.1 = k then some p.2 else dictLookup k tl

/-- Python `d.get(k, default)`. -/
def dictGet (k : String) (d : Dict) (default : PyVal) : PyVal :=
  (dictLookup k d).getD default

/-- Python `del d[k]`: removes the binding for `k`. -/
def delKey (k : String) : Dict → Dict
  | [] => []
  | p :: tl => if p.1 = k then delKey k tl else p :: delKey k tl

/-- The guarded deletion `if k in d: del d[k]` used by
`remove_superficial_options` in recitale/utils.py. -/
def delIfPresent (k : String) (d : Dict) : Dict :=
  if d.any (fun p => p.1 = k) then delKey k d else d

/-- recitale/utils.py `remove_superficial_options`: works on a copy of the
options mapping and deletes the keys "name", "exif", "text", "type", "size",
"float" and "resize" when present. -/
def remove_superficial_options (options : Dict) : Dict :=
  let cleaned_options := options
  let cleaned_options := delIfPresent "name" cleaned_options
  let cleaned_options := delIfPresent "exif" cleaned_options
  let cleaned_options := delIfPresent "text" cleaned_options
  let cleaned_options := delIfPresent "type" cleaned_options
  let cleaned_options := delIfPresent "size" cleaned_options
  let cleaned_options := delIfPresent "float" cleaned_options
  let cleaned_options := delIfPresent "resize" cleaned_options
  cleaned_options

/-- Call-level embedding of `remove_superficial_options` that tracks the
mapping object passed as argument separately from the local
`cleaned_options` object: `options.copy()` duplicates the contents into a
distinct object and every `del` statement targets only that copy, so the
pair returned is (return value, contents of the argument after the call). -/
def remove_superficial_options_call (options : Dict) : Dict × Dict :=
  let arg := options
  let cleaned_options := arg
  let cleaned_options := delIfPresent "name" cleaned_options
  let cleaned_options := delIfPresent "exif" cleaned_options
  let cleaned_options := delIfPresent "text" cleaned_options
  let cleaned_options := delIfPresent "type" cleaned_options
  let cleaned_options := delIfPresent "size" cleaned_options
  let cleaned_options := delIfPresent "float" cleaned_options
  let cleaned_options := delIfPresent "resize" cleaned_options
  (cleaned_options, arg)

/-- The superficial option keys as the specification enumerates them:
display label, EXIF excerpt, caption text, declared media type, declared
on-page size, resize hint. -/
def specSuperficialKeys : List String :=
  ["name", "exif", "text", "type", "size", "resize"]

/-- The option keys the code actually strips: the spec's six plus "float". -/
def codeSuperficialKeys : List String :=
  ["name", "exif", "text", "type", "size", "float", "resize"]

theorem dictLookup_delKey (k k' : String) (d : Dict) :
    dictLookup k (delKey k' d) =
      if k = k' then Option.none else dictLookup k d := by
  induction d with
  | nil => simp [delKey, dictLookup]
  | cons p tl ih =>
    by_cases hp : p.1 = k' <;> by_cases hpk : p.1 = k <;>
      simp_all [delKey, dictLookup]

theorem dictLookup_eq_none_of_not_any (k : String) (d : Dict)
    (h : d.any (fun p => p.1 = k) = false) :
    dictLookup k d = Option.none := by
  induction d with
  | nil => simp [dictLookup]
  | cons p tl ih =>
    simp only [List.any_cons, Bool.or_eq_false_iff, decide_eq_false_iff_not] at h
    simp [dictLookup, h.1, ih (by simpa using h.2)]

theorem dictLookup_delIfPresent (k k' : String) (d : Dict) :
    dictLookup k (delIfPresent k' d) =
      if k = k' then Option.none else dictLookup k d := by
  unfold delIfPresent
  by_cases hany : d.any (fun p => p.1 = k') = true
  · rw [if_pos hany, dictLookup_delKey]
  · rw [if_neg hany]
    by_cases hk : k = k'
    · subst hk
      rw [if_pos rfl]
      exact dictLookup_eq_none_of_not_any k d (eq_false_of_ne_true hany)
    · rw [if_neg hk]

set_option maxHeartbeats 1000000 in
theorem dictLookup_remove_superficial (k : String) (d : Dict) :
    dictLookup k (remove_superficial_options d) =
      if k ∈ codeSuperficialKeys then Option.none else dictLookup k d := by
  show dictLookup k
      (delIfPresent "resize" (delIfPresent "float" (delIfPresent "size"
        (delIfPresent "type" (delIfPresent "text" (delIfPresent "exif"
          (delIfPresent "name" d))))))) = _
  rw [dictLookup_delIfPresent, dictLookup_delIfPresent, dictLookup_delIfPresent,
    dictLookup_delIfPresent, dictLookup_delIfPresent, dictLookup_delIfPresent,
    dictLookup_delIfPresent]
  simp only [codeSuperficialKeys, List.mem_cons, List.not_mem_nil, or_false]
  by_cases h1 : k = "name" <;> by_cases h2 : k = "exif" <;>
    by_cases h3 : k = "text" <;> by_cases h4 : k = "type" <;>
    by_cases h5 : k = "size" <;> by_cases h6 : k = "float" <;>
    by_cases h7 : k = "resize" <;>
    simp [h1, h2, h3, h4, h5, h6, h7]

/-! ### Cache store, modelled from the spec

`recitale/cache.py` (imported as `from .cache import CACHE`) is not among the
sources, so the store is modelled from the spec: an entry is keyed by
(source path, derived path) and holds a fingerprint made of the source file
modification time, a normalized serialization of the effective options after
superficial-key stripping, and whether the derived path exists;
`needs_to_be_generated` is true when no entry exists, the stored fingerprint
differs from a freshly computed one, or the derived path is absent; and
`cache_picture` computes the fresh fingerprint and stores it. -/

/-- The filesystem visible to the pipeline: modification time of each
existing file, keyed by path (absent key = absent file). -/
abbrev FS := List (String × Nat)

/-- Modification time of `p`, `Option.none` when the file does not exist. -/
def fsMtime (p : String) : FS → Option Nat
  | [] => Option.none
  | e :: tl => if e.1 = p then some e.2 else fsMtime p tl

/-- Writing a file: `p` now exists with modification time `m`. -/
def fsWrite (p : String) (m : Nat) (fs : FS) : FS :=
  (p, m) :: fs.filter (fun e => e.1 ≠ p)

/-- Lexicographic code-point comparison of key strings, used to give the
normalized serialization a fixed key order. -/
def charListLt : List Char → List Char → Bool
  | [], [] => false
  | [], _ :: _ => true
  | _ :: _, [] => false
  | a :: as, b :: bs =>
    if a.toNat < b.toNat then true
    else if b.toNat < a.toNat then false
    else charListLt as bs

/-- True when `a` sorts before `b`. -/
def keyLt (a b : String) : Bool := charListLt a.data b.data

/-- Insert `p` into a list of pairs sorted by key. -/
def sortInsertKey (p : String × PyVal) : List (String × PyVal) → List (String × PyVal)
  | [] => [p]
  | q :: qs => if keyLt p.1 q.1 then p :: q :: qs else q :: sortInsertKey p qs

/-- Modelled from the spec: the normalized serialization of the effective
options used inside a fingerprint — superficial keys stripped and the
remaining bindings sorted by key so that insertion order is irrelevant. -/
def normalizeOpts (d : Dict) : Dict :=
  (remove_superficial_options d).foldr sortInsertKey []

/-- Modelled from the spec: a cache fingerprint — source mtime, normalized
effective options, and a derived-path existence marker. -/
structure Fingerprint where
  srcMtime : Option Nat
  optsDigest : Dict
  dstExists : Bool
deriving DecidableEq, Repr

/-- The persistent cache store: (source path, derived path) → fingerprint. -/
abbrev Store := List ((String × String) × Fingerprint)

/-- Entry stored for the key `k`, if any. -/
def storeLookup (k : String × String) : Store → Option Fingerprint
  | [] => Option.none
  | e :: tl => if e.1 = k then some e.2 else storeLookup k tl

/-- Store/overwrite the entry for `k`. -/
def storeInsert (k : String × String) (fp : Fingerprint) (st : Store) : Store :=
  (k, fp) :: st.filter (fun e => e.1 ≠ k)

/-- Modelled from the spec: the fingerprint of (source, derived, options)
freshly computed against the current filesystem. -/
def fingerprint (fs : FS) (src _dst : String) (opts : Dict) (dstMtime : Option Nat) : Fingerprint :=
  { srcMtime := fsMtime src fs
    optsDigest := normalizeOpts opts
    dstExists := dstMtime.isSome }

/-- Modelled from the spec: `CACHE.needs_to_be_generated(src, dst, opts)` —
true if no entry exists for the key, or the stored fingerprint differs from
the fresh one, or the derived path is absent. -/
def needs_to_be_generated (fs : FS) (st : Store) (src dst : String) (opts : Dict) : Bool :=
  match storeLookup (src, dst) st with
  | Option.none => true
  | some fp =>
    fp ≠ fingerprint fs src dst opts (fsMtime dst fs) || (fsMtime dst fs).isNone

/-- Modelled from the spec: `CACHE.cache_picture(src, dst, opts)` — computes
the fresh fingerprint and stores/overwrites the entry for (src, dst). -/
def cache_picture (fs : FS) (st : Store) (src dst : String) (opts : Dict) : Store :=
  storeInsert (src, dst) (fingerprint fs src dst opts (fsMtime dst fs)) st

/-! ### Image pipeline data model (recitale/recitale.py) -/

/-- One derived variant of a base asset: destination path (relative to the
build tree) and target size; either dimension may be `Option.none`
(Python `None`), meaning unconstrained. -/
structure Thumbnail where
  filepath : String
  size : Option Nat × Option Nat
deriving DecidableEq, Repr

/-- A registered base image: source path, options mapping, its thumbnails in
registry order, and the data read from the image file itself — the
parameter mapping computed by `image_params(img, options)`, the pixel
dimensions, the EXIF orientation tag 0x0112 (1 when absent), and the length
of the embedded ICC profile. -/
structure BaseImage where
  filepath : String
  options : Dict
  thumbnails : List Thumbnail
  imageParams : Dict
  imgSize : Nat × Nat
  orientation : Nat
  iccLen : Nat
deriving DecidableEq, Repr

/-- Python truthiness of an optional dimension (`None` and `0` are falsy). -/
def dimTruthy : Option Nat → Bool
  | Option.none => false
  | some n => n ≠ 0

/-- The substitution `d if d is not None else IGNORE_DIM` with `IGNORE_DIM = 65596` — the
substitution render_thumbnails applies to an unset dimension. -/
def substDim : Option Nat → Nat
  | Option.none => 65596
  | some n => n

/-- The stripping `if params.get("exif") and base.options.get("strip", False): del params["exif"]`
— the effective parameter mapping both `noncached_images` and
`render_thumbnails` pass to the cache. -/
def effParams (base : BaseImage) : Dict :=
  if (dictGet "exif" base.imageParams PyVal.pynone).truthy
      && (dictGet "strip" base.options (PyVal.bool false)).truthy
  then delKey "exif" base.imageParams
  else base.imageParams

/-- Pixel size after `ImageOps.exif_transpose`: orientations 5-8 swap the
axes, the others keep them (`exif_transpose` is modelled as total; the
fallback for old Pillow releases is not modelled). -/
def transposedSize (orientation : Nat) (size : Nat × Nat) : Nat × Nat :=
  if orientation = 5 || orientation = 6 || orientation = 7 || orientation = 8
  then (size.2, size.1) else size

/-- The image size after the auto-orient block of `render_thumbnails`:
rotated when the parameters carry EXIF data, auto-orient is requested and
the orientation tag says the image is not upright. -/
def oriented_size (base : BaseImage) : Nat × Nat :=
  if (dictGet "exif" base.imageParams PyVal.pynone).truthy
      && (dictGet "auto-orient" base.options (PyVal.bool false)).truthy
      && (base.orientation ≠ 1 : Bool)
  then transposedSize base.orientation base.imgSize
  else base.imgSize

/-- Output size of `im.thumbnail((bw, bh))` (PIL): the image is shrunk,
preserving aspect ratio, so that it fits within the bounds; it is never
enlarged. -/
def pil_thumbnail (dims : Nat × Nat) (bounds : Nat × Nat) : Nat × Nat :=
  let w := dims.1
  let h := dims.2
  let bw := bounds.1
  let bh := bounds.2
  if w ≤ bw && h ≤ bh then (w, h)
  else if bw * h ≤ bh * w then (bw, max 1 (h * bw / w))
  else (max 1 (w * bh / h), bh)

/-- Observable events of the pipeline functions, in program order. -/
inductive REvent where
  | openImage (src : String)
  | cacheCheck (src dst : String) (needed : Bool)
  | resizeCall (dst : String) (bounds : Nat × Nat)
  | saveAttempt (dst : String) (attempt : Nat) (dims : Nat × Nat)
  | enlargeBuffer (amount : Option Nat)
  | logWarn
  | logErr
  | logSkip (dst : String)
  | runCommand (cmd : String) (ret : Int)
  | cachePicture (src dst : String) (opts : Dict)
  | queuePut (val : Option Nat)
deriving DecidableEq, Repr

/-- Destinations of the save calls in a trace (any attempt). -/
def saveDsts (evs : List REvent) : List String :=
  evs.filterMap (fun e => match e with
    | .saveAttempt d _ _ => some d
    | _ => Option.none)

/-- The save calls made for one destination: (attempt, dims) pairs. -/
def saveAttemptsFor (dst : String) (evs : List REvent) : List (Nat × Nat × Nat) :=
  evs.filterMap (fun e => match e with
    | .saveAttempt d n dims => if d = dst then some (n, dims) else Option.none
    | _ => Option.none)

/-- The resize calls in a trace: (destination, bounds). -/
def resizeCalls (evs : List REvent) : List (String × Nat × Nat) :=
  evs.filterMap (fun e => match e with
    | .resizeCall d b => some (d, b)
    | _ => Option.none)

/-- The cache-record calls in a trace: (source, destination). -/
def recordCalls (evs : List REvent) : List (String × String) :=
  evs.filterMap (fun e => match e with
    | .cachePicture s d _ => some (s, d)
    | _ => Option.none)

/-- The cache checks in a trace: (destination, outcome). -/
def checkCalls (evs : List REvent) : List (String × Bool) :=
  evs.filterMap (fun e => match e with
    | .cacheCheck _ d b => some (d, b)
    | _ => Option.none)

/-- The external commands run in a trace: (command, return code). -/
def commandCalls (evs : List REvent) : List (String × Int) :=
  evs.filterMap (fun e => match e with
    | .runCommand c r => some (c, r)
    | _ => Option.none)

/-- The progress-queue puts in a trace. -/
def queuePuts (evs : List REvent) : List (Option Nat) :=
  evs.filterMap (fun e => match e with
    | .queuePut v => some v
    | _ => Option.none)

/-- The buffer enlargements in a trace. -/
def enlargeCalls (evs : List REvent) : List (Option Nat) :=
  evs.filterMap (fun e => match e with
    | .enlargeBuffer a => some a
    | _ => Option.none)

/-! ### Scan phase worker: noncached_images -/

/-- The per-thumbnail loop of `noncached_images`: queries the cache for each
thumbnail in order and stops at the first one that needs work (`return base`),
reporting one unit of progress on the queue on both exit paths. Returns the
events and whether the base was flagged dirty. -/
def noncached_go (fs : FS) (store : Store) (src : String) (params : Dict) :
    List Thumbnail → List REvent × Bool
  | [] => ([REvent.queuePut (some 1)], false)
  | t :: ts =>
    let filepath := "build/" ++ t.filepath
    let needed := needs_to_be_generated fs store src filepath params
    if needed then
      ([REvent.cacheCheck src filepath true, REvent.queuePut (some 1)], true)
    else
      let r := noncached_go fs store src params ts
      (REvent.cacheCheck src filepath false :: r.1, r.2)

/-- recitale.py `noncached_images(base)`: opens the source, computes the
effective parameters, and returns the base when any thumbnail needs to be
generated, nothing when all are cached. -/
def noncached_images (fs : FS) (store : Store) (base : BaseImage) :
    List REvent × Option BaseImage :=
  let r := noncached_go fs store base.filepath (effParams base) base.thumbnails
  (REvent.openImage base.filepath :: r.1, if r.2 then some base else Option.none)

/-! ### Render phase worker: render_thumbnails -/

/-- Outcome of an `im.save` call, decided by the environment. -/
inductive SaveOutcome where
  | ok
  | oserror
  | typeerror
deriving DecidableEq, Repr

/-- Oracles for the effects the render worker performs outside the embedded
code: the outcome of the first `im.save` on a destination (OK, the OSError
of Pillow issue 148, or the TypeError of Pillow < 7.2.0), whether the
retried save succeeds, and the mtime given to files written. -/
structure RenderEnv where
  save1 : String → SaveOutcome
  save2 : String → Bool
  now : Nat

/-- State threaded through the render worker: filesystem, the worker's view
of the cache store, the (mutable) parameter mapping, the event trace, and
whether an uncaught exception has propagated. -/
structure RenderState where
  fs : FS
  store : Store
  params : Dict
  events : List REvent
  failed : Bool
deriving Repr

/-- The body of the per-thumbnail loop of `render_thumbnails`
(recitale.py lines 541-612): re-check the cache, skip a cached variant,
resize only when a dimension is unset (substituting 65596 for it), save with
the two exception work-arounds, record on success. A `failed` state makes
the remaining iterations no-ops: the exception has propagated out of the
function. -/
def render_one_thumbnail (env : RenderEnv) (src : String) (img : Nat × Nat)
    (icc : Nat) (st : RenderState) (t : Thumbnail) : RenderState :=
  if st.failed then st else
  let filepath := "build/" ++ t.filepath
  let needed := needs_to_be_generated st.fs st.store src filepath st.params
  let st := { st with events := st.events ++ [REvent.cacheCheck src filepath needed] }
  if !needed then st else
  let width := t.size.1
  let height := t.size.2
  let subst := !dimTruthy width || !dimTruthy height
  let w1 := if subst then substDim width else width.getD 0
  let h1 := if subst then substDim height else height.getD 0
  let im := if subst then pil_thumbnail img (w1, h1) else img
  let st :=
    if subst then { st with events := st.events ++ [REvent.resizeCall filepath (w1, h1)] }
    else st
  match env.save1 filepath with
  | .ok =>
    let fs := fsWrite filepath env.now st.fs
    { st with
      fs := fs,
      store := cache_picture fs st.store src filepath st.params,
      events := st.events ++ [REvent.saveAttempt filepath 1 im, REvent.cachePicture src filepath st.params] }
  | .oserror =>
    let st := { st with events := st.events ++ [REvent.saveAttempt filepath 1 im, REvent.logWarn] }
    let wh : Option Nat × Option Nat :=
      if w1 ≠ 0 && h1 ≠ 0 then (some w1, some h1) else t.size
    let amount : Option Nat :=
      match wh with
      | (some w, some h) => some (4 * w * h + icc + 10)
      | _ => Option.none
    match amount with
    | Option.none => { st with failed := true }
    | some a =>
      let st := { st with events := st.events ++ [REvent.enlargeBuffer (some a), REvent.saveAttempt filepath 2 im] }
      if env.save2 filepath then
        let fs := fsWrite filepath env.now st.fs
        { st with
          fs := fs,
          store := cache_picture fs st.store src filepath st.params,
          events := st.events ++ [REvent.cachePicture src filepath st.params] }
      else { st with failed := true }
  | .typeerror =>
    let st := { st with events := st.events ++ [REvent.saveAttempt filepath 1 im, REvent.logWarn] }
    let params := delKey "exif" st.params
    let st := { st with
                params := params,
                events := st.events ++ [REvent.saveAttempt filepath 2 im] }
    if env.save2 filepath then
      let fs := fsWrite filepath env.now st.fs
      { st with
        fs := fs,
        store := cache_picture fs st.store src filepath params,
        events := st.events ++ [REvent.cachePicture src filepath params] }
    else { st with failed := true }

/-- recitale.py `render_thumbnails(base)`: auto-orient, strip EXIF when
requested, then process every thumbnail; the final `queue.put(1)` is only
reached when no exception propagated. -/
def render_thumbnails (env : RenderEnv) (fs : FS) (store : Store)
    (base : BaseImage) : RenderState :=
  let img := oriented_size base
  let st : RenderState :=
    { fs := fs, store := store, params := effParams base,
      events := [REvent.openImage base.filepath], failed := false }
  let st := base.thumbnails.foldl (render_one_thumbnail env base.filepath img base.iccLen) st
  if st.failed then st
  else { st with events := st.events ++ [REvent.queuePut (some 1)] }

/-- Coordinator-level model of `pool.map(render_thumbnails, base_imgs)`: the
first exception raised inside a worker is re-raised by `map` in the main
process, so the phase raises whenever some item's worker raised. Workers
start from the coordinator's snapshot of the store, and distinct assets'
derived paths are disjoint, so each item's outcome is the outcome of
`render_thumbnails` on the snapshot. -/
def render_map_raises (env : RenderEnv) (fs : FS) (store : Store)
    (bases : List BaseImage) : Bool :=
  bases.any (fun b => (render_thumbnails env fs store b).failed)

/-! ### Sequential media encoders: render_video and the audio reencoder -/

/-- A registered video or audio base asset: source path, options, reencode
variants and thumbnail variants in registry order. -/
structure BaseMedia where
  filepath : String
  options : Dict
  reencodes : List Thumbnail
  thumbnails : List Thumbnail
deriving DecidableEq, Repr

/-- Model of `shlex.quote` for the paths appearing here (no shell metacharacters, so
quoting returns the string unchanged). -/
def shquote (s : String) : String := s

/-- State threaded through the sequential encoders: filesystem, the main
process's cache store, and the event trace. The command strings carry the
unsubstituted template fields; `.format(**base.options)` substitutes only
encoder settings and is applied at the oracle boundary. -/
structure MediaState where
  fs : FS
  store : Store
  events : List REvent
deriving Repr

/-- The reencode loop of `render_video` (recitale.py lines 620-654): one
command per uncached reencode variant, `continue` on a cached one, abort on
a non-zero exit (returning `false` so the thumbnail half is skipped),
record after each successful command. -/
def render_video_reencodes (run : String → Int) (now : Nat) (src : String)
    (opts : Dict) (reencodecmd : String) :
    List Thumbnail → MediaState → MediaState × Bool
  | [], st => (st, true)
  | r :: rs, st =>
    let filepath := "build/" ++ r.filepath
    let needed := needs_to_be_generated st.fs st.store src filepath opts
    let st := { st with events := st.events ++ [REvent.cacheCheck src filepath needed] }
    if !needed then render_video_reencodes run now src opts reencodecmd rs st
    else
      let w : Int := if dimTruthy r.size.1 then (r.size.1.getD 0 : Nat) else -1
      let h : Int := if dimTruthy r.size.2 then (r.size.2.getD 0 : Nat) else -1
      let command := reencodecmd ++ "-s " ++ toString w ++ "x" ++ toString h
        ++ " " ++ shquote filepath
      let ret := run command
      let st := { st with events := st.events ++ [REvent.runCommand command ret] }
      if ret ≠ 0 then ({ st with events := st.events ++ [REvent.logErr] }, false)
      else
        let fs := fsWrite filepath now st.fs
        let st := { st with
                    fs := fs,
                    store := cache_picture fs st.store src filepath opts,
                    events := st.events ++ [REvent.cachePicture src filepath opts] }
        render_video_reencodes run now src opts reencodecmd rs st

/-- Accumulator of the thumbnail loop of `render_video`: the single
multi-output command being built, the uncached thumbnails collected, the
loop variable `filepath` (reassigned on every iteration, before the cache
check), and the events. -/
structure VThumbScan where
  command : String
  uncached : List Thumbnail
  lastFilepath : String
  events : List REvent
deriving Repr

/-- The thumbnail loop of `render_video` (recitale.py lines 661-678):
`filepath` is assigned for every thumbnail, cached ones are skipped, and
each uncached one appends one output to the shared command. -/
def render_video_thumbs_scan (fs : FS) (store : Store) (src : String) (opts : Dict) :
    List Thumbnail → VThumbScan → VThumbScan
  | [], acc => acc
  | t :: ts, acc =>
    let filepath := "build/" ++ t.filepath
    let acc := { acc with lastFilepath := filepath }
    let needed := needs_to_be_generated fs store src filepath opts
    let acc := { acc with events := acc.events ++ [REvent.cacheCheck src filepath needed] }
    if !needed then render_video_thumbs_scan fs store src opts ts acc
    else
      let w : Int := if dimTruthy t.size.1 then (t.size.1.getD 0 : Nat) else -1
      let h : Int := if dimTruthy t.size.2 then (t.size.2.getD 0 : Nat) else -1
      let acc := { acc with
                   command := acc.command ++ " -frames:v 1 -vf scale=" ++ toString w
                     ++ ":" ++ toString h ++ " " ++ shquote filepath,
                   uncached := acc.uncached ++ [t] }
      render_video_thumbs_scan fs store src opts ts acc

/-- recitale.py `render_video(base)` (lines 616-692): reencode variants one
command each, then one multi-output command for all uncached thumbnails;
after a successful thumbnail command, `cache_picture` is called once per
uncached thumbnail but always with the loop-leftover `filepath` — the
build path of the last thumbnail examined — as the derived path. -/
def render_video (run : String → Int) (now : Nat) (fs : FS) (store : Store)
    (base : BaseMedia) : MediaState :=
  let basecmd := "{binary} -loglevel {loglevel} -y -i " ++ shquote base.filepath
  let st : MediaState := { fs := fs, store := store, events := [] }
  let res :=
    if base.reencodes.isEmpty then (st, true)
    else
      let reencodecmd := basecmd
        ++ " -stats -c:v {video} -b:v {vbitrate} {other} -c:a {audio} -b:a {abitrate} "
        ++ "-f {format} "
      render_video_reencodes run now base.filepath base.options reencodecmd base.reencodes st
  let st := res.1
  if !res.2 then st
  else if base.thumbnails.isEmpty then st
  else
    let scan := render_video_thumbs_scan st.fs st.store base.filepath base.options
      base.thumbnails
      { command := "", uncached := [], lastFilepath := "", events := st.events }
    let st := { st with events := scan.events }
    if scan.uncached.isEmpty then st
    else
      let command := basecmd ++ scan.command
      let ret := run command
      let st := { st with events := st.events ++ [REvent.runCommand command ret] }
      if ret ≠ 0 then { st with events := st.events ++ [REvent.logErr] }
      else
        let st := { st with
                    fs := scan.uncached.foldl
                      (fun fl t => fsWrite ("build/" ++ t.filepath) now fl) st.fs }
        scan.uncached.foldl (fun st _t =>
          { st with
            store := cache_picture st.fs st.store base.filepath scan.lastFilepath base.options,
            events := st.events
              ++ [REvent.cachePicture base.filepath scan.lastFilepath base.options] }) st

/-- The reencode loop of the audio reencoder (recitale.py lines 705-721):
a cached variant logs "Skipped" and then RETURNS, ending the whole
function; an uncached one runs its command, aborts the remaining variants
on a non-zero exit, and records on success. -/
def reencode_audio_go (run : String → Int) (now : Nat) (src : String)
    (opts : Dict) (basecmd : String) : List Thumbnail → MediaState → MediaState
  | [], st => st
  | r :: rs, st =>
    let filepath := "build/" ++ r.filepath
    let needed := needs_to_be_generated st.fs st.store src filepath opts
    let st := { st with events := st.events ++ [REvent.cacheCheck src filepath needed] }
    if !needed then
      { st with events := st.events ++ [REvent.logSkip r.filepath] }
    else
      let command := basecmd ++ shquote filepath
      let ret := run command
      let st := { st with events := st.events ++ [REvent.runCommand command ret] }
      if ret ≠ 0 then { st with events := st.events ++ [REvent.logErr] }
      else
        let fs := fsWrite filepath now st.fs
        let st := { st with
                    fs := fs,
                    store := cache_picture fs st.store src filepath opts,
                    events := st.events ++ [REvent.cachePicture src filepath opts] }
        reencode_audio_go run now src opts basecmd rs st

/-- recitale.py `reencode_audio(base)` (lines 695-721). -/
def reencode_audio (run : String → Int) (now : Nat) (fs : FS) (store : Store)
    (base : BaseMedia) : MediaState :=
  let basecmd := "{binary} -loglevel {loglevel} -stats -i " ++ shquote base.filepath
    ++ " -c:a {audio} -y "
  let st : MediaState := { fs := fs, store := store, events := [] }
  if base.reencodes.isEmpty then st
  else reencode_audio_go run now base.filepath base.options basecmd base.reencodes st

/-! ### The build coordinator: main()'s try/finally around the four phases -/

/-- Whether a phase of the try block ran to completion or raised (a worker
failure re-raised by `pool.map`, or an interruption delivered during the
phase). -/
inductive PhaseOutcome where
  | ok
  | raised
deriving DecidableEq, Repr

/-- The inputs determining the shape of one build run: the outcome of each
phase and which phases have work at all. -/
structure MainEnv where
  scanPhase : PhaseOutcome
  renderPhase : PhaseOutcome
  videoPhase : PhaseOutcome
  audioPhase : PhaseOutcome
  anyDirty : Bool
  hasVideos : Bool
  hasAudios : Bool
deriving DecidableEq, Repr

/-- Coordinator-level events of main(): the two pool.map calls, the
end-of-stream `pbar_queue.put(None)` after each, the two sequential encoder
loops, and the `CACHE.cache_dump()` flush. -/
inductive MEvent where
  | scanMap
  | endOfStream
  | renderMap
  | videoLoop
  | audioLoop
  | flush
deriving DecidableEq, Repr

/-- The video and audio loops at the end of the try block of main()
(recitale.py lines 934-945). -/
def videoAudioTail (env : MainEnv) : List MEvent × PhaseOutcome :=
  if env.hasVideos then
    match env.videoPhase with
    | .raised => ([.videoLoop], .raised)
    | .ok =>
      if env.hasAudios then
        ([MEvent.videoLoop, MEvent.audioLoop],
          if env.audioPhase = .raised then PhaseOutcome.raised else PhaseOutcome.ok)
      else ([.videoLoop], .ok)
  else
    if env.hasAudios then
      ([MEvent.audioLoop],
        if env.audioPhase = .raised then PhaseOutcome.raised else PhaseOutcome.ok)
    else ([], .ok)

/-- The try/finally of main() (recitale.py lines 870-947): the scan map and
its end-of-stream put, the render map (only when some asset is dirty) and
its end-of-stream put, the video loop, the audio loop — and
`CACHE.cache_dump()` as the finally clause, which runs whatever the try
block did. A phase that raises skips the rest of the try block. -/
def mainPipeline (env : MainEnv) : List MEvent × PhaseOutcome :=
  let body : List MEvent × PhaseOutcome :=
    match env.scanPhase with
    | .raised => ([.scanMap], .raised)
    | .ok =>
      let evs := [MEvent.scanMap, MEvent.endOfStream]
      if env.anyDirty then
        match env.renderPhase with
        | .raised => (evs ++ [.renderMap], .raised)
        | .ok =>
          let t := videoAudioTail env
          (evs ++ [MEvent.renderMap, MEvent.endOfStream] ++ t.1, t.2)
      else
        let t := videoAudioTail env
        (evs ++ t.1, t.2)
  (body.1 ++ [.flush], body.2)

/-- The progress consumer `handle_pbar` (recitale.py lines 885-892):
`while queue.get(): pbar.update()` — counts received units until the first
falsy value (the end-of-stream `None`), then terminates and releases the
bar. Returns (number of updates, whether it terminated) for a given
sequence of received values. -/
def handle_pbar : List (Option Nat) → Nat × Bool
  | [] => (0, false)
  | v :: vs =>
    match v with
    | Option.none => (0, true)
    | some n =>
      if n ≠ 0 then
        let r := handle_pbar vs
        (r.1 + 1, r.2)
      else (0, true)

/-- Number of warnings logged in a trace. -/
def warnCount (evs : List REvent) : Nat :=
  (evs.filterMap (fun e => match e with
    | REvent.logWarn => some ()
    | _ => Option.none)).length

/-! ### Trace selector lemmas -/

theorem checkCalls_append (a b : List REvent) :
    checkCalls (a ++ b) = checkCalls a ++ checkCalls b := by
  simp [checkCalls, List.filterMap_append]

theorem saveDsts_append (a b : List REvent) :
    saveDsts (a ++ b) = saveDsts a ++ saveDsts b := by
  simp [saveDsts, List.filterMap_append]

theorem saveAttemptsFor_append (dst : String) (a b : List REvent) :
    saveAttemptsFor dst (a ++ b) = saveAttemptsFor dst a ++ saveAttemptsFor dst b := by
  simp [saveAttemptsFor, List.filterMap_append]

theorem recordCalls_append (a b : List REvent) :
    recordCalls (a ++ b) = recordCalls a ++ recordCalls b := by
  simp [recordCalls, List.filterMap_append]

theorem resizeCalls_append (a b : List REvent) :
    resizeCalls (a ++ b) = resizeCalls a ++ resizeCalls b := by
  simp [resizeCalls, List.filterMap_append]

theorem queuePuts_append (a b : List REvent) :
    queuePuts (a ++ b) = queuePuts a ++ queuePuts b := by
  simp [queuePuts, List.filterMap_append]

theorem enlargeCalls_append (a b : List REvent) :
    enlargeCalls (a ++ b) = enlargeCalls a ++ enlargeCalls b := by
  simp [enlargeCalls, List.filterMap_append]

theorem warnCount_append (a b : List REvent) :
    warnCount (a ++ b) = warnCount a + warnCount b := by
  simp [warnCount, List.filterMap_append]

/-! ### Branch lemmas for the render worker's per-thumbnail step -/

theorem render_one_failed (env : RenderEnv) (src : String) (img : Nat × Nat)
    (icc : Nat) (st : RenderState) (t : Thumbnail) (hf : st.failed = true) :
    render_one_thumbnail env src img icc st t = st := by
  unfold render_one_thumbnail
  rw [hf]
  rfl

theorem render_one_cached (env : RenderEnv) (src : String) (img : Nat × Nat)
    (icc : Nat) (st : RenderState) (t : Thumbnail) (hf : st.failed = false)
    (hneed : needs_to_be_generated st.fs st.store src ("build/" ++ t.filepath) st.params
      = false) :
    render_one_thumbnail env src img icc st t =
      { st with events := st.events
          ++ [REvent.cacheCheck src ("build/" ++ t.filepath) false] } := by
  unfold render_one_thumbnail
  rw [hf]
  simp [hneed]

theorem render_one_ok (env : RenderEnv) (src : String) (img : Nat × Nat)
    (icc : Nat) (st : RenderState) (t : Thumbnail) (hf : st.failed = false)
    (hneed : needs_to_be_generated st.fs st.store src ("build/" ++ t.filepath) st.params
      = true)
    (hsave : env.save1 ("build/" ++ t.filepath) = SaveOutcome.ok) :
    render_one_thumbnail env src img icc st t =
      let filepath := "build/" ++ t.filepath
      let subst := !dimTruthy t.size.1 || !dimTruthy t.size.2
      let bounds := (substDim t.size.1, substDim t.size.2)
      let im := if subst then pil_thumbnail img bounds else img
      let fs := fsWrite filepath env.now st.fs
      { st with
        fs := fs,
        store := cache_picture fs st.store src filepath st.params,
        events := st.events ++ [REvent.cacheCheck src filepath true]
          ++ (if subst then [REvent.resizeCall filepath bounds] else [])
          ++ [REvent.saveAttempt filepath 1 im, REvent.cachePicture src filepath st.params] } := by
  unfold render_one_thumbnail
  rw [hf]
  simp only [hneed, Bool.not_true, Bool.false_eq_true, if_false, if_true, ite_true,
    ite_false, Bool.not_false, hsave]
  by_cases hs : (!dimTruthy t.size.1 || !dimTruthy t.size.2) = true <;>
    simp [hs, List.append_assoc]

theorem render_one_oserror (env : RenderEnv) (src : String) (img : Nat × Nat)
    (icc : Nat) (st : RenderState) (t : Thumbnail) (w h : Nat)
    (hf : st.failed = false)
    (hsize : t.size = (some w, some h)) (hw : w ≠ 0) (hh : h ≠ 0)
    (hneed : needs_to_be_generated st.fs st.store src ("build/" ++ t.filepath) st.params
      = true)
    (hsave : env.save1 ("build/" ++ t.filepath) = SaveOutcome.oserror) :
    render_one_thumbnail env src img icc st t =
      let filepath := "build/" ++ t.filepath
      if env.save2 filepath then
        let fs := fsWrite filepath env.now st.fs
        { st with
          fs := fs,
          store := cache_picture fs st.store src filepath st.params,
          events := st.events
            ++ [REvent.cacheCheck src filepath true,
                REvent.saveAttempt filepath 1 img, REvent.logWarn,
                REvent.enlargeBuffer (some (4 * w * h + icc + 10)),
                REvent.saveAttempt filepath 2 img,
                REvent.cachePicture src filepath st.params] }
      else
        { st with
          events := st.events
            ++ [REvent.cacheCheck src filepath true,
                REvent.saveAttempt filepath 1 img, REvent.logWarn,
                REvent.enlargeBuffer (some (4 * w * h + icc + 10)),
                REvent.saveAttempt filepath 2 img],
          failed := true } := by
  unfold render_one_thumbnail
  rw [hf]
  simp only [hneed, hsave, hsize, dimTruthy, substDim]
  have hwt : (decide ¬w = 0) = true := by simpa using hw
  have hht : (decide ¬h = 0) = true := by simpa using hh
  simp [hw, hh, List.append_assoc]

theorem queuePuts_render_one (env : RenderEnv) (src : String) (img : Nat × Nat)
    (icc : Nat) (st : RenderState) (t : Thumbnail) :
    queuePuts (render_one_thumbnail env src img icc st t).events =
      queuePuts st.events := by
  unfold render_one_thumbnail
  by_cases hf : st.failed = true
  · rw [hf]; rfl
  · rw [eq_false_of_ne_true hf]
    by_cases hneed : needs_to_be_generated st.fs st.store src
        ("build/" ++ t.filepath) st.params = true
    · simp only [hneed]
      rcases hsave : env.save1 ("build/" ++ t.filepath) with _ | _ | _ <;>
        simp only [hsave] <;>
        by_cases hs : (!dimTruthy t.size.1 || !dimTruthy t.size.2) = true <;>
        simp only [hs] <;>
        repeat' split <;>
        try (first | rfl | simp [queuePuts_append, queuePuts])
    · simp [eq_false_of_ne_true hneed, queuePuts_append, queuePuts]

theorem failed_render_one_of_failed (env : RenderEnv) (src : String)
    (img : Nat × Nat) (icc : Nat) (st : RenderState) (t : Thumbnail)
    (hf : st.failed = true) :
    (render_one_thumbnail env src img icc st t).failed = true := by
  rw [render_one_failed env src img icc st t hf, hf]

theorem queuePuts_render_fold (env : RenderEnv) (src : String) (img : Nat × Nat)
    (icc : Nat) (ts : List Thumbnail) (st : RenderState) :
    queuePuts ((ts.foldl (render_one_thumbnail env src img icc) st).events) =
      queuePuts st.events := by
  induction ts generalizing st with
  | nil => rfl
  | cons t ts ih =>
    simp only [List.foldl]
    rw [ih, queuePuts_render_one]

/-! ### Cache and filesystem lemmas -/

theorem fsMtime_filter_ne (p q : String) (fs : FS) (h : p ≠ q) :
    fsMtime p (fs.filter (fun e => e.1 ≠ q)) = fsMtime p fs := by
  induction fs with
  | nil => rfl
  | cons e tl ih =>
    by_cases he : e.1 = q <;> by_cases hep : e.1 = p <;>
      simp_all [fsMtime]

theorem fsMtime_fsWrite_self (p : String) (m : Nat) (fs : FS) :
    fsMtime p (fsWrite p m fs) = some m := by
  simp [fsWrite, fsMtime]

theorem fsMtime_fsWrite_ne (p q : String) (m : Nat) (fs : FS) (h : p ≠ q) :
    fsMtime p (fsWrite q m fs) = fsMtime p fs := by
  simp only [fsWrite, fsMtime]
  rw [if_neg (by intro hc; exact h hc.symm)]
  exact fsMtime_filter_ne p q fs h

theorem storeLookup_filter_ne (k k' : String × String) (st : Store) (h : k ≠ k') :
    storeLookup k (st.filter (fun e => e.1 ≠ k')) = storeLookup k st := by
  induction st with
  | nil => rfl
  | cons e tl ih =>
    by_cases he : e.1 = k' <;> by_cases hek : e.1 = k <;>
      simp_all [storeLookup]

theorem storeLookup_insert_self (k : String × String) (fp : Fingerprint) (st : Store) :
    storeLookup k (storeInsert k fp st) = some fp := by
  simp [storeInsert, storeLookup]

theorem storeLookup_insert_ne (k k' : String × String) (fp : Fingerprint)
    (st : Store) (h : k ≠ k') :
    storeLookup k (storeInsert k' fp st) = storeLookup k st := by
  simp only [storeInsert, storeLookup]
  rw [if_neg (by intro hc; exact h hc.symm)]
  exact storeLookup_filter_ne k k' st h

/-- After `cache_picture` records a (src, dst, opts) triple, the cache check
for the same triple on the same filesystem fails exactly when the derived
file is still absent. -/
theorem needs_after_cache_picture (fs : FS) (st : Store) (src dst : String)
    (opts : Dict) :
    needs_to_be_generated fs (cache_picture fs st src dst opts) src dst opts =
      (fsMtime dst fs).isNone := by
  unfold needs_to_be_generated cache_picture
  rw [storeLookup_insert_self]
  simp

/-- A cache check is unchanged by writing an unrelated file and recording an
unrelated entry. -/
theorem needs_unchanged_of_unrelated (fs : FS) (st : Store) (src dst : String)
    (opts : Dict) (p : String) (m : Nat) (k : String × String) (fp : Fingerprint)
    (hsrc : src ≠ p) (hdst : dst ≠ p) (hk : (src, dst) ≠ k) :
    needs_to_be_generated (fsWrite p m fs) (storeInsert k fp st) src dst opts =
      needs_to_be_generated fs st src dst opts := by
  unfold needs_to_be_generated fingerprint
  rw [storeLookup_insert_ne _ _ _ _ hk, fsMtime_fsWrite_ne dst p m fs hdst,
    fsMtime_fsWrite_ne src p m fs hsrc]

/-- The progress units a render worker emits: exactly one when it ran to
completion, none when an exception propagated out of it. -/
theorem queuePuts_render_thumbnails (env : RenderEnv) (fs : FS) (store : Store)
    (base : BaseImage) :
    queuePuts (render_thumbnails env fs store base).events =
      if (render_thumbnails env fs store base).failed then [] else [some 1] := by
  unfold render_thumbnails
  by_cases hf : (base.thumbnails.foldl
      (render_one_thumbnail env base.filepath (oriented_size base) base.iccLen)
      { fs := fs, store := store, params := effParams base,
        events := [REvent.openImage base.filepath], failed := false }).failed = true
  · simp only [hf, if_true]
    rw [queuePuts_render_fold]
    rfl
  · simp only [eq_false_of_ne_true hf, if_false, Bool.false_eq_true]
    simp only [queuePuts_append]
    rw [queuePuts_render_fold]
    rfl

/-- The cache checks the scan worker performs, stated over the thumbnail
list: every thumbnail before the first dirty one (checked, found cached) and
the first dirty one itself (checked, found dirty); nothing after it. -/
def scanChecked (fs : FS) (store : Store) (src : String) (params : Dict)
    (ts : List Thumbnail) : List (String × Bool) :=
  let dirty := fun t =>
    needs_to_be_generated fs store src ("build/" ++ t.filepath) params
  (ts.takeWhile (fun t => !dirty t)).map (fun t => ("build/" ++ t.filepath, false))
    ++ (match ts.dropWhile (fun t => !dirty t) with
        | [] => []
        | t :: _ => [("build/" ++ t.filepath, true)])

theorem noncached_go_spec (fs : FS) (store : Store) (src : String) (params : Dict)
    (ts : List Thumbnail) :
    (noncached_go fs store src params ts).2 =
        ts.any (fun t =>
          needs_to_be_generated fs store src ("build/" ++ t.filepath) params) ∧
    checkCalls (noncached_go fs store src params ts).1 =
        scanChecked fs store src params ts ∧
    resizeCalls (noncached_go fs store src params ts).1 = [] ∧
    saveDsts (noncached_go fs store src params ts).1 = [] ∧
    queuePuts (noncached_go fs store src params ts).1 = [some 1] := by
  induction ts with
  | nil =>
    refine ⟨rfl, ?_, rfl, rfl, rfl⟩
    simp [noncached_go, scanChecked, checkCalls]
  | cons t ts ih =>
    by_cases hd : needs_to_be_generated fs store src ("build/" ++ t.filepath) params
      = true
    · refine ⟨?_, ?_, ?_, ?_, ?_⟩ <;>
        simp [noncached_go, hd, scanChecked, checkCalls, resizeCalls, saveDsts,
          queuePuts, List.takeWhile, List.dropWhile]
    · have hd' := eq_false_of_ne_true hd
      obtain ⟨ih1, ih2, ih3, ih4, ih5⟩ := ih
      have hgo : noncached_go fs store src params (t :: ts) =
          (REvent.cacheCheck src ("build/" ++ t.filepath) false
              :: (noncached_go fs store src params ts).1,
            (noncached_go fs store src params ts).2) := by
        simp [noncached_go, hd']
      rw [hgo]
      refine ⟨by simpa [hd'] using ih1, ?_, ?_, ?_, ?_⟩
      · have hc : checkCalls (REvent.cacheCheck src ("build/" ++ t.filepath) false
              :: (noncached_go fs store src params ts).1) =
            ("build/" ++ t.filepath, false)
              :: checkCalls (noncached_go fs store src params ts).1 := by
          simp [checkCalls]
        rw [hc, ih2]
        simp [scanChecked, List.takeWhile_cons, List.dropWhile_cons, hd']
      · simpa [resizeCalls] using ih3
      · simpa [saveDsts] using ih4
      · simpa [queuePuts] using ih5

/-! ### Concrete fixtures used by counterexamples and witnesses -/

/-- A mapping holding only the "float" layout-hint key. -/
def floatOnlyDict : Dict := [("float", PyVal.str "left")]

/-- A mapping with one substantive key and one superficial key. -/
def qualNameDict : Dict := [("quality", PyVal.num 75), ("name", PyVal.str "photo.jpg")]

/-- Video fixture: two thumbnails, both uncached. -/
def vidThumb1 : Thumbnail := { filepath := "thumb1.jpg", size := (some 300, Option.none) }

def vidThumb2 : Thumbnail := { filepath := "thumb2.jpg", size := (some 600, Option.none) }

def vidBase : BaseMedia :=
  { filepath := "gal/vid.mp4", options := [("binary", PyVal.str "ffmpeg")],
    reencodes := [], thumbnails := [vidThumb1, vidThumb2] }

def vidFS : FS := [("gal/vid.mp4", 5)]

/-- Audio fixture: first reencode cached (entry fresh, file present), second
uncached. -/
def audOpts : Dict := [("binary", PyVal.str "ffmpeg"), ("audio", PyVal.str "libmp3lame")]

def audReenc1 : Thumbnail := { filepath := "a1.mp3", size := (Option.none, Option.none) }

def audReenc2 : Thumbnail := { filepath := "a2.mp3", size := (Option.none, Option.none) }

def audFS : FS := [("gal/a.flac", 5), ("build/a1.mp3", 7)]

def audStore : Store :=
  [(("gal/a.flac", "build/a1.mp3"),
    fingerprint audFS "gal/a.flac" "build/a1.mp3" audOpts (fsMtime "build/a1.mp3" audFS))]

def audBase : BaseMedia :=
  { filepath := "gal/a.flac", options := audOpts, reencodes := [audReenc1, audReenc2],
    thumbnails := [] }

/-- Image fixture: thumbnail 1 cached (entry fresh, file present),
thumbnail 2 (both dimensions set) missing. -/
def imOpts : Dict := [("quality", PyVal.num 75), ("strip", PyVal.bool true)]

def imThumb1 : Thumbnail := { filepath := "im-300.jpg", size := (some 300, Option.none) }

def imThumb2 : Thumbnail := { filepath := "im-600.jpg", size := (some 600, some 400) }

def imBase : BaseImage :=
  { filepath := "gal/im.jpg", options := imOpts, thumbnails := [imThumb1, imThumb2],
    imageParams := [("format", PyVal.str "JPEG"), ("quality", PyVal.num 75)],
    imgSize := (3000, 2000), orientation := 1, iccLen := 0 }

def imFS : FS := [("gal/im.jpg", 5), ("build/im-300.jpg", 9)]

def imStore : Store :=
  [(("gal/im.jpg", "build/im-300.jpg"),
    fingerprint imFS "gal/im.jpg" "build/im-300.jpg" (effParams imBase)
      (fsMtime "build/im-300.jpg" imFS))]

def imEnv : RenderEnv := { save1 := fun _ => .ok, save2 := fun _ => true, now := 42 }

/-! ### Claim theorems -/

/-- Claim C1 counterexample: the mappings `[("float", "left")]` and `[]` differ in
the key "float", which is not one of the spec's six superficial keys, yet
stripping sends both to the same (empty) mapping — so differing in a
non-superficial key does not guarantee different stripped mappings, and the
stripping does not remove exactly the spec's keys. -/
theorem C1_counterexample :
    "float" ∉ specSuperficialKeys ∧
    dictLookup "float" floatOnlyDict ≠ dictLookup "float" ([] : Dict) ∧
    remove_superficial_options floatOnlyDict = remove_superficial_options ([] : Dict) := by
  refine ⟨?_, ?_, ?_⟩ <;> decide

/-- Claim C1 (amended): the stripping removes exactly the spec's six superficial
keys plus the "float" layout-hint key; two options mappings produce the same
stripped mapping exactly when they agree on every key outside those seven. -/
theorem C1_strip_equal_iff_agree_outside_stripped (d1 d2 : Dict) :
    (∀ k, dictLookup k (remove_superficial_options d1) =
        dictLookup k (remove_superficial_options d2)) ↔
      ∀ k, k ∉ codeSuperficialKeys → dictLookup k d1 = dictLookup k d2 := by
  constructor
  · intro h k hk
    have hke := h k
    rw [dictLookup_remove_superficial, dictLookup_remove_superficial,
      if_neg hk, if_neg hk] at hke
    exact hke
  · intro h k
    rw [dictLookup_remove_superficial, dictLookup_remove_superficial]
    by_cases hk : k ∈ codeSuperficialKeys
    · rw [if_pos hk, if_pos hk]
    · rw [if_neg hk, if_neg hk]
      exact h k hk

/-- Claim C10: the superficial-key stripping leaves the argument mapping itself
unchanged (it operates on a copy), and every key present in the result maps
to the same value as in the input. -/
theorem C10_strip_pure_and_value_preserving (d : Dict) (k : String)
    (h : dictLookup k (remove_superficial_options d) ≠ Option.none) :
    (remove_superficial_options_call d).2 = d ∧
    dictLookup k (remove_superficial_options d) = dictLookup k d := by
  refine ⟨rfl, ?_⟩
  rw [dictLookup_remove_superficial] at h ⊢
  by_cases hk : k ∈ codeSuperficialKeys
  · rw [if_pos hk] at h
    exact absurd rfl h
  · rw [if_neg hk]

/-- Witness for claim C10 at a concrete mapping and key. -/
theorem C10_witness :
    (remove_superficial_options_call qualNameDict).2 = qualNameDict ∧
    dictLookup "quality" (remove_superficial_options qualNameDict) =
      dictLookup "quality" qualNameDict :=
  C10_strip_pure_and_value_preserving qualNameDict "quality" (by decide)

/-- Claim C2: after the single multi-output thumbnail command of `render_video`
exits with status zero, the code calls `cache_picture` once per uncached
thumbnail but keys every record with the loop-leftover `filepath` — here
both records name thumb2's build path although thumb1 was also uncached
(its cache check returned true and the command contains its output). -/
theorem C2_video_records_under_last_path :
    checkCalls (render_video (fun _ => 0) 42 vidFS [] vidBase).events =
      [("build/thumb1.jpg", true), ("build/thumb2.jpg", true)] ∧
    (commandCalls (render_video (fun _ => 0) 42 vidFS [] vidBase).events).length = 1 ∧
    recordCalls (render_video (fun _ => 0) 42 vidFS [] vidBase).events =
      [("gal/vid.mp4", "build/thumb2.jpg"), ("gal/vid.mp4", "build/thumb2.jpg")] := by
  refine ⟨?_, ?_, ?_⟩ <;> rfl

/-- Claim C8: the audio reencoder finds the first reencode variant cached, logs
"Skipped" and returns — the second variant is never checked, no command is
run and nothing is recorded, although that second variant still needs to be
generated. -/
theorem C8_audio_cached_variant_aborts_rest :
    ( reencode_audio (fun _ => 0) 42 audFS audStore audBase).events =
      [REvent.cacheCheck "gal/a.flac" "build/a1.mp3" false, REvent.logSkip "a1.mp3"] ∧
    needs_to_be_generated audFS audStore "gal/a.flac" "build/a2.mp3" audOpts = true := by
  refine ⟨?_, ?_⟩ <;> decide

/-- Claim C6: the scan worker flags a base image dirty (returns it) exactly when
some thumbnail's cache check is true, returns nothing exactly when every
thumbnail is cached, consults the cache in thumbnail order stopping at the
first dirty one, performs no resizing and no saving, and emits exactly one
progress unit. -/
theorem C6_scan_flags_dirty_iff (fs : FS) (store : Store) (base : BaseImage) :
    ((noncached_images fs store base).2 = some base ↔
      ∃ t ∈ base.thumbnails,
        needs_to_be_generated fs store base.filepath ("build/" ++ t.filepath)
          (effParams base) = true) ∧
    ((noncached_images fs store base).2 = Option.none ↔
      ∀ t ∈ base.thumbnails,
        needs_to_be_generated fs store base.filepath ("build/" ++ t.filepath)
          (effParams base) = false) ∧
    checkCalls (noncached_images fs store base).1 =
      scanChecked fs store base.filepath (effParams base) base.thumbnails ∧
    resizeCalls (noncached_images fs store base).1 = [] ∧
    saveDsts (noncached_images fs store base).1 = [] ∧
    queuePuts (noncached_images fs store base).1 = [some 1] := by
  obtain ⟨hany, hchk, hres, hsav, hput⟩ :=
    noncached_go_spec fs store base.filepath (effParams base) base.thumbnails
  unfold noncached_images
  dsimp only
  refine ⟨?_, ?_, ?_, ?_, ?_, ?_⟩
  · cases hb : base.thumbnails.any (fun t =>
        needs_to_be_generated fs store base.filepath ("build/" ++ t.filepath)
          (effParams base)) with
    | true =>
      rw [hany, hb]
      simp only [if_true]
      constructor
      · intro _
        simpa using List.any_eq_true.mp hb
      · intro _
        trivial
    | false =>
      rw [hany, hb]
      simp only [Bool.false_eq_true, if_false]
      constructor
      · intro h
        exact Option.noConfusion h
      · intro ⟨t, ht, hn⟩
        have hf := List.any_eq_false.mp hb t ht
        rw [hn] at hf
        exact absurd hf (by simp)
  · cases hb : base.thumbnails.any (fun t =>
        needs_to_be_generated fs store base.filepath ("build/" ++ t.filepath)
          (effParams base)) with
    | true =>
      rw [hany, hb]
      simp only [if_true]
      constructor
      · intro h
        exact Option.noConfusion h
      · intro hall
        obtain ⟨t, ht, hp⟩ := List.any_eq_true.mp hb
        have := hall t ht
        rw [this] at hp
        exact absurd hp (by simp)
    | false =>
      rw [hany, hb]
      simp only [Bool.false_eq_true, if_false]
      constructor
      · intro _ t ht
        have := List.any_eq_false.mp hb t ht
        simpa using this
      · intro _
        trivial
  · simpa [checkCalls] using hchk
  · simpa [resizeCalls] using hres
  · simpa [saveDsts] using hsav
  · simpa [queuePuts] using hput

/-- Claim C7: `CACHE.cache_dump()` is the finally clause of main()'s try block:
it runs exactly once, as the very last step, on every exit path — whether
every phase completed or the scan, render, video or audio phase raised
(worker failure or interruption). -/
theorem C7_flush_exactly_once_on_every_exit (env : MainEnv) :
    (mainPipeline env).1.count MEvent.flush = 1 ∧
    (mainPipeline env).1.getLast? = some MEvent.flush := by
  obtain ⟨s, r, v, a, d, hv, ha⟩ := env
  cases s <;> cases r <;> cases v <;> cases a <;> cases d <;> cases hv <;> cases ha <;>
    exact ⟨by decide, by decide⟩

/-- Claim C3: on a dirty image base with one cached and one missing thumbnail, the
render worker re-checks the cache per thumbnail and regenerates only the
missing one — one save, one record, both keyed to the missing thumbnail —
and afterwards both thumbnails are recorded as cached in the store it
operated on (both cache checks now return false). -/
theorem C3_render_regenerates_only_missing
    (env : RenderEnv) (fs : FS) (store : Store) (base : BaseImage) (t1 t2 : Thumbnail)
    (hthumbs : base.thumbnails = [t1, t2])
    (h1 : needs_to_be_generated fs store base.filepath ("build/" ++ t1.filepath)
      (effParams base) = false)
    (h2 : needs_to_be_generated fs store base.filepath ("build/" ++ t2.filepath)
      (effParams base) = true)
    (hsave : env.save1 ("build/" ++ t2.filepath) = SaveOutcome.ok)
    (hne12 : ("build/" ++ t1.filepath : String) ≠ "build/" ++ t2.filepath)
    (hne2s : base.filepath ≠ "build/" ++ t2.filepath) :
    checkCalls (render_thumbnails env fs store base).events =
      [("build/" ++ t1.filepath, false), ("build/" ++ t2.filepath, true)] ∧
    saveDsts (render_thumbnails env fs store base).events =
      ["build/" ++ t2.filepath] ∧
    recordCalls (render_thumbnails env fs store base).events =
      [(base.filepath, "build/" ++ t2.filepath)] ∧
    (render_thumbnails env fs store base).failed = false ∧
    needs_to_be_generated (render_thumbnails env fs store base).fs
      (render_thumbnails env fs store base).store base.filepath
      ("build/" ++ t1.filepath) (effParams base) = false ∧
    needs_to_be_generated (render_thumbnails env fs store base).fs
      (render_thumbnails env fs store base).store base.filepath
      ("build/" ++ t2.filepath) (effParams base) = false := by
  unfold render_thumbnails
  rw [hthumbs]
  simp only [List.foldl]
  rw [render_one_cached env base.filepath (oriented_size base) base.iccLen _ t1 rfl h1]
  rw [render_one_ok env base.filepath (oriented_size base) base.iccLen _ t2 rfl h2 hsave]
  by_cases hsub : (!dimTruthy t2.size.1 || !dimTruthy t2.size.2) = true <;>
    refine ⟨?_, ?_, ?_, ?_, ?_, ?_⟩ <;>
    simp only [hsub, Bool.false_eq_true, if_true, if_false, ite_true, ite_false] <;>
    first
      | (simp [checkCalls, saveDsts, recordCalls, queuePuts])
      | (show needs_to_be_generated _ _ _ _ _ = false
         simp only [cache_picture]
         first
           | (rw [needs_unchanged_of_unrelated _ _ _ _ _ _ _ _ _ hne2s hne12
                (by intro hc; exact hne12 (congrArg Prod.snd hc))]
              exact h1)
           | (rw [show (storeInsert (base.filepath, "build/" ++ t2.filepath) _ store) =
                cache_picture (fsWrite ("build/" ++ t2.filepath) env.now fs) store
                  base.filepath ("build/" ++ t2.filepath) (effParams base) from rfl,
                needs_after_cache_picture, fsMtime_fsWrite_self]
              rfl))

/-- Witness for claim C3 on the concrete fixture: thumbnail 1 cached, thumbnail 2
missing. -/
theorem C3_witness :
    checkCalls (render_thumbnails imEnv imFS imStore imBase).events =
      [("build/" ++ imThumb1.filepath, false), ("build/" ++ imThumb2.filepath, true)] ∧
    saveDsts (render_thumbnails imEnv imFS imStore imBase).events =
      ["build/" ++ imThumb2.filepath] ∧
    recordCalls (render_thumbnails imEnv imFS imStore imBase).events =
      [(imBase.filepath, "build/" ++ imThumb2.filepath)] ∧
    (render_thumbnails imEnv imFS imStore imBase).failed = false ∧
    needs_to_be_generated (render_thumbnails imEnv imFS imStore imBase).fs
      (render_thumbnails imEnv imFS imStore imBase).store imBase.filepath
      ("build/" ++ imThumb1.filepath) (effParams imBase) = false ∧
    needs_to_be_generated (render_thumbnails imEnv imFS imStore imBase).fs
      (render_thumbnails imEnv imFS imStore imBase).store imBase.filepath
      ("build/" ++ imThumb2.filepath) (effParams imBase) = false :=
  C3_render_regenerates_only_missing imEnv imFS imStore imBase imThumb1 imThumb2
    rfl (by decide) (by decide) rfl (by decide) (by decide)

set_option maxHeartbeats 4000000 in
/-- Claim C5 (amended): for a variant being regenerated, the resize happens only
when a target dimension is unset (or zero): in that case `im.thumbnail` is
called once with the unset dimension substituted by the effectively
unbounded 65596 so that only the constrained dimension governs the result;
when both dimensions are set the image is not resized at all and is saved
with its original dimensions. -/
theorem C5_resize_only_when_dimension_unset (env : RenderEnv) (src : String)
    (img : Nat × Nat) (icc : Nat) (st : RenderState) (t : Thumbnail)
    (hf : st.failed = false)
    (hneed : needs_to_be_generated st.fs st.store src ("build/" ++ t.filepath)
      st.params = true) :
    resizeCalls (render_one_thumbnail env src img icc st t).events =
      resizeCalls st.events ++
        (if !dimTruthy t.size.1 || !dimTruthy t.size.2 then
          [("build/" ++ t.filepath, (substDim t.size.1, substDim t.size.2))]
         else []) ∧
    (∀ a ∈ saveAttemptsFor ("build/" ++ t.filepath)
        (render_one_thumbnail env src img icc st t).events,
      a ∈ saveAttemptsFor ("build/" ++ t.filepath) st.events ∨
        a.2 = (if !dimTruthy t.size.1 || !dimTruthy t.size.2 then
          pil_thumbnail img (substDim t.size.1, substDim t.size.2) else img)) := by
  unfold render_one_thumbnail
  rw [hf]
  simp only [hneed, Bool.not_true, Bool.false_eq_true, if_false, if_true,
    ite_true, ite_false]
  by_cases hs : (!dimTruthy t.size.1 || !dimTruthy t.size.2) = true <;>
    simp only [hs, Bool.false_eq_true, if_true, if_false, ite_true, ite_false] <;>
    constructor <;>
    rcases hsave : env.save1 ("build/" ++ t.filepath) with _ | _ | _ <;>
    simp only [hsave] <;>
    (repeat' split) <;>
    (try (first
      | rfl
      | (intro a ha
         simp [saveAttemptsFor_append, saveAttemptsFor] at ha ⊢
         tauto)
      | simp [resizeCalls_append, resizeCalls, saveAttemptsFor_append, saveAttemptsFor]))
  all_goals aesop

/-- Claim C5 counterexample: thumbnail 2 of the image fixture has both dimensions
set, to (600, 400), and the image is 3000x2000 — yet the render performs no
resize call at all and saves the image at its original 3000x2000 size,
which does not fit within (600, 400); an unset dimension is required for
any resizing to happen. -/
theorem C5_counterexample :
    imThumb2.size = (some 600, some 400) ∧
    imBase.imgSize = (3000, 2000) ∧
    resizeCalls (render_thumbnails imEnv imFS imStore imBase).events = [] ∧
    saveAttemptsFor "build/im-600.jpg"
        (render_thumbnails imEnv imFS imStore imBase).events = [(1, (3000, 2000))] ∧
    ¬(3000 ≤ 600 ∧ 2000 ≤ 400) := by
  refine ⟨?_, ?_, ?_, ?_, ?_⟩ <;> decide

/-- Witness for the amended claim C5 on a concrete variant with an unset height:
exactly one resize call, with 65596 substituted for the unset dimension. -/
theorem C5_witness :
    resizeCalls (render_one_thumbnail imEnv "gal/im.jpg" (3000, 2000) 0
        { fs := [("gal/im.jpg", 5)], store := [], params := [], events := [],
          failed := false } imThumb1).events =
      resizeCalls [] ++
        (if !dimTruthy imThumb1.size.1 || !dimTruthy imThumb1.size.2 then
          [("build/" ++ imThumb1.filepath,
            (substDim imThumb1.size.1, substDim imThumb1.size.2))]
         else []) :=
  (C5_resize_only_when_dimension_unset imEnv "gal/im.jpg" (3000, 2000) 0
    { fs := [("gal/im.jpg", 5)], store := [], params := [], events := [],
      failed := false } imThumb1 rfl (by decide)).1

set_option maxHeartbeats 2000000 in
/-- Claim C4 (amended): a save that raises the buffer-sizing OSError is retried
exactly once, after the encoder buffer is enlarged based on the output
dimensions; if the retry succeeds the cache records success and processing
continues (the asset finishes, with only a logged warning, and reports its
progress unit); if the retry also fails the exception propagates out of the
worker: the asset's remaining variants are skipped, nothing further is
recorded, no progress unit is emitted, and pool.map re-raises the failure in
the coordinator, so the render phase aborts instead of continuing with the
next asset (the first failure was logged as the warning before the retry). -/
theorem C4_buffer_retry_policy
    (env : RenderEnv) (fs : FS) (store : Store) (base : BaseImage)
    (t1 t2 : Thumbnail) (w h : Nat) (others : List BaseImage)
    (hthumbs : base.thumbnails = [t1, t2])
    (hsize : t1.size = (some w, some h)) (hw : w ≠ 0) (hh : h ≠ 0)
    (h1 : needs_to_be_generated fs store base.filepath ("build/" ++ t1.filepath)
      (effParams base) = true)
    (hos : env.save1 ("build/" ++ t1.filepath) = SaveOutcome.oserror)
    (hok2 : env.save1 ("build/" ++ t2.filepath) = SaveOutcome.ok) :
    saveAttemptsFor ("build/" ++ t1.filepath)
        (render_thumbnails env fs store base).events =
      [(1, oriented_size base), (2, oriented_size base)] ∧
    enlargeCalls (render_thumbnails env fs store base).events =
      [some (4 * w * h + base.iccLen + 10)] ∧
    warnCount (render_thumbnails env fs store base).events = 1 ∧
    (env.save2 ("build/" ++ t1.filepath) = true →
      (recordCalls (render_thumbnails env fs store base).events).head? =
        some (base.filepath, "build/" ++ t1.filepath) ∧
      (render_thumbnails env fs store base).failed = false ∧
      queuePuts (render_thumbnails env fs store base).events = [some 1] ∧
      (checkCalls (render_thumbnails env fs store base).events).length = 2) ∧
    (env.save2 ("build/" ++ t1.filepath) = false →
      (render_thumbnails env fs store base).failed = true ∧
      checkCalls (render_thumbnails env fs store base).events =
        [("build/" ++ t1.filepath, true)] ∧
      queuePuts (render_thumbnails env fs store base).events = [] ∧
      recordCalls (render_thumbnails env fs store base).events = [] ∧
      render_map_raises env fs store (base :: others) = true) := by
  have hne : ("build/" ++ t2.filepath : String) ≠ "build/" ++ t1.filepath := by
    intro he
    rw [← he] at hos
    rw [hok2] at hos
    exact SaveOutcome.noConfusion hos
  unfold render_thumbnails
  rw [hthumbs]
  simp only [List.foldl]
  rw [render_one_oserror env base.filepath (oriented_size base) base.iccLen _ t1 w h
    rfl hsize hw hh h1 hos]
  by_cases hs2 : env.save2 ("build/" ++ t1.filepath) = true
  · simp only [hs2, eq_self_iff_true, if_true, ite_true]
    by_cases hn2 : needs_to_be_generated
        (fsWrite ("build/" ++ t1.filepath) env.now fs)
        (cache_picture (fsWrite ("build/" ++ t1.filepath) env.now fs) store
          base.filepath ("build/" ++ t1.filepath) (effParams base))
        base.filepath ("build/" ++ t2.filepath) (effParams base) = true
    · rw [render_one_ok env base.filepath (oriented_size base) base.iccLen _ t2
        rfl hn2 hok2]
      by_cases hsub2 : (!dimTruthy t2.size.1 || !dimTruthy t2.size.2) = true <;>
        refine ⟨?_, ?_, ?_, fun _ => ⟨?_, ?_, ?_, ?_⟩, fun hc => Bool.noConfusion hc⟩ <;>
        simp [hsub2, saveAttemptsFor_append, saveAttemptsFor, enlargeCalls_append,
          enlargeCalls, warnCount_append, warnCount, recordCalls_append, recordCalls,
          queuePuts_append, queuePuts, checkCalls_append, checkCalls, hne]
    · rw [render_one_cached env base.filepath (oriented_size base) base.iccLen _ t2
        rfl (eq_false_of_ne_true hn2)]
      refine ⟨?_, ?_, ?_, fun _ => ⟨?_, ?_, ?_, ?_⟩, fun hc => Bool.noConfusion hc⟩ <;>
        simp [saveAttemptsFor_append, saveAttemptsFor, enlargeCalls_append,
          enlargeCalls, warnCount_append, warnCount, recordCalls_append, recordCalls,
          queuePuts_append, queuePuts, checkCalls_append, checkCalls, hne]
  · have hs2' := eq_false_of_ne_true hs2
    have hfailed : (render_thumbnails env fs store base).failed = true := by
      unfold render_thumbnails
      rw [hthumbs]
      simp only [List.foldl]
      rw [render_one_oserror env base.filepath (oriented_size base) base.iccLen _ t1
        w h rfl hsize hw hh h1 hos]
      simp only [hs2', Bool.false_eq_true, if_false, ite_false]
      rw [render_one_failed env base.filepath (oriented_size base) base.iccLen _ t2 rfl]
      rfl
    simp only [hs2', Bool.false_eq_true, if_false, ite_false]
    rw [render_one_failed env base.filepath (oriented_size base) base.iccLen _ t2 rfl]
    refine ⟨?_, ?_, ?_, fun hc => hc.elim,
        fun _ => ⟨?_, ?_, ?_, ?_, ?_⟩⟩ <;>
      simp [saveAttemptsFor_append, saveAttemptsFor, enlargeCalls_append,
        enlargeCalls, warnCount_append, warnCount, recordCalls_append, recordCalls,
        queuePuts_append, queuePuts, checkCalls_append, checkCalls, hne,
        render_map_raises, hfailed]

/-- Fixture for the failed-retry scenario: every first save raises the
buffer OSError and every retry fails too. -/
def c4Env : RenderEnv :=
  { save1 := fun _ => SaveOutcome.oserror, save2 := fun _ => false, now := 42 }

def c4Thumb1 : Thumbnail := { filepath := "x-600.jpg", size := (some 600, some 400) }

def c4Thumb2 : Thumbnail := { filepath := "x-300.jpg", size := (some 300, some 200) }

def c4Base : BaseImage :=
  { filepath := "gal/x.jpg", options := [], thumbnails := [c4Thumb1, c4Thumb2],
    imageParams := [], imgSize := (3000, 2000), orientation := 1, iccLen := 0 }

/-- A second, untouched asset: the "next asset" the batch should have
continued with. -/
def c4Base2 : BaseImage :=
  { filepath := "gal/y.jpg", options := [], thumbnails := [c4Thumb2],
    imageParams := [], imgSize := (1000, 800), orientation := 1, iccLen := 0 }

/-- Environment for the retry-succeeds witness: the first save of thumbnail
x-600 raises the buffer OSError, every other save and every retry succeeds. -/
def c4wEnv : RenderEnv :=
  { save1 := fun p => if p = "build/x-600.jpg" then SaveOutcome.oserror
      else SaveOutcome.ok,
    save2 := fun _ => true, now := 42 }

/-- Claim C4 counterexample: when the retried save also fails, the exception
propagates out of the worker (failed run), the asset's remaining variant is
never even checked, nothing is recorded — and pool.map re-raises the
exception in the coordinator, so the render phase over [asset, next asset]
raises instead of continuing with the next asset as the claim states. -/
theorem C4_counterexample :
    (render_thumbnails c4Env [("gal/x.jpg", 5)] [] c4Base).failed = true ∧
    checkCalls (render_thumbnails c4Env [("gal/x.jpg", 5)] [] c4Base).events =
      [("build/x-600.jpg", true)] ∧
    recordCalls (render_thumbnails c4Env [("gal/x.jpg", 5)] [] c4Base).events = [] ∧
    render_map_raises c4Env [("gal/x.jpg", 5)] [] [c4Base, c4Base2] = true := by
  refine ⟨?_, ?_, ?_, ?_⟩ <;> decide

/-- Witness for the amended claim C4 on the concrete retry-succeeds fixture. -/
theorem C4_witness :
    saveAttemptsFor ("build/" ++ c4Thumb1.filepath)
        (render_thumbnails c4wEnv [("gal/x.jpg", 5)] [] c4Base).events =
      [(1, oriented_size c4Base), (2, oriented_size c4Base)] ∧
    enlargeCalls (render_thumbnails c4wEnv [("gal/x.jpg", 5)] [] c4Base).events =
      [some (4 * 600 * 400 + c4Base.iccLen + 10)] ∧
    warnCount (render_thumbnails c4wEnv [("gal/x.jpg", 5)] [] c4Base).events = 1 ∧
    (c4wEnv.save2 ("build/" ++ c4Thumb1.filepath) = true →
      (recordCalls (render_thumbnails c4wEnv [("gal/x.jpg", 5)] [] c4Base).events).head? =
        some (c4Base.filepath, "build/" ++ c4Thumb1.filepath) ∧
      (render_thumbnails c4wEnv [("gal/x.jpg", 5)] [] c4Base).failed = false ∧
      queuePuts (render_thumbnails c4wEnv [("gal/x.jpg", 5)] [] c4Base).events =
        [some 1] ∧
      (checkCalls (render_thumbnails c4wEnv [("gal/x.jpg", 5)] [] c4Base).events).length
        = 2) ∧
    (c4wEnv.save2 ("build/" ++ c4Thumb1.filepath) = false →
      (render_thumbnails c4wEnv [("gal/x.jpg", 5)] [] c4Base).failed = true ∧
      checkCalls (render_thumbnails c4wEnv [("gal/x.jpg", 5)] [] c4Base).events =
        [("build/" ++ c4Thumb1.filepath, true)] ∧
      queuePuts (render_thumbnails c4wEnv [("gal/x.jpg", 5)] [] c4Base).events = [] ∧
      recordCalls (render_thumbnails c4wEnv [("gal/x.jpg", 5)] [] c4Base).events = [] ∧
      render_map_raises c4wEnv [("gal/x.jpg", 5)] [] (c4Base :: [c4Base2]) = true) :=
  C4_buffer_retry_policy c4wEnv [("gal/x.jpg", 5)] [] c4Base c4Thumb1 c4Thumb2
    600 400 [c4Base2] rfl rfl (by decide) (by decide) (by decide) (by decide)
    (by decide)

/-- A run in which every phase completes. -/
def mainEnvAllOk : MainEnv :=
  { scanPhase := .ok, renderPhase := .ok, videoPhase := .ok, audioPhase := .ok,
    anyDirty := true, hasVideos := true, hasAudios := true }

/-- Claim C9 (amended): every scan worker emits exactly one progress unit per item
on both exit paths; a render worker emits exactly one unit when it completes
(success, or failure handled by a successful retry) and none when an
uncaught exception propagates; when the scan and render phases complete, the
dispatcher sends the end-of-stream signal exactly once per phase that ran
(the render phase runs only when some asset is dirty); and the consumer
counts every unit received before the end-of-stream signal and terminates on
it. -/
theorem C9_progress_protocol (fs : FS) (store : Store) (base : BaseImage)
    (env : RenderEnv) (rbase : BaseImage) (menv : MainEnv) (units : List Nat) :
    queuePuts (noncached_images fs store base).1 = [some 1] ∧
    queuePuts (render_thumbnails env fs store rbase).events =
      (if (render_thumbnails env fs store rbase).failed then [] else [some 1]) ∧
    (menv.scanPhase = .ok → menv.renderPhase = .ok →
      (mainPipeline menv).1.count MEvent.endOfStream =
        1 + (if menv.anyDirty then 1 else 0)) ∧
    ((∀ u ∈ units, u ≠ 0) →
      handle_pbar (units.map some ++ [Option.none]) = (units.length, true)) := by
  refine ⟨?_, queuePuts_render_thumbnails env fs store rbase, ?_, ?_⟩
  · obtain ⟨-, -, -, -, hput⟩ :=
      noncached_go_spec fs store base.filepath (effParams base) base.thumbnails
    unfold noncached_images
    dsimp only
    simpa [queuePuts] using hput
  · obtain ⟨s, r, v, a, d, hv, ha⟩ := menv
    intro h1 h2
    dsimp only at h1 h2
    subst h1
    subst h2
    cases v <;> cases a <;> cases d <;> cases hv <;> cases ha <;> decide
  · intro hu
    induction units with
    | nil => rfl
    | cons u us ih =>
      have hu0 : u ≠ 0 := hu u (by simp)
      have ih' := ih (fun x hx => hu x (by simp [hx]))
      simp only [List.map_cons, List.cons_append, handle_pbar, hu0, ne_eq,
        not_false_eq_true, if_true, ite_true, List.append_eq]
      rw [ih']
      simp [hu0]

/-- Claim C9 counterexample: a render item that fails (the retried save raises and
the exception propagates) emits no progress unit at all, not the one unit
per processed item the claim requires. -/
theorem C9_counterexample :
    (render_thumbnails c4Env [("gal/x.jpg", 5)] [] c4Base).failed = true ∧
    queuePuts (render_thumbnails c4Env [("gal/x.jpg", 5)] [] c4Base).events = [] := by
  refine ⟨?_, ?_⟩ <;> decide

/-- Witness for the amended claim C9 on concrete inputs. -/
theorem C9_witness :
    queuePuts (noncached_images imFS imStore imBase).1 = [some 1] ∧
    (mainPipeline mainEnvAllOk).1.count MEvent.endOfStream =
      1 + (if mainEnvAllOk.anyDirty then 1 else 0) ∧
    handle_pbar ([3, 2].map some ++ [Option.none]) = ([3, 2].length, true) :=
  ⟨(C9_progress_protocol imFS imStore imBase imEnv imBase mainEnvAllOk [3, 2]).1,
    (C9_progress_protocol imFS imStore imBase imEnv imBase mainEnvAllOk [3, 2]).2.2.1
      rfl rfl,
    (C9_progress_protocol imFS imStore imBase imEnv imBase mainEnvAllOk [3, 2]).2.2.2
      (by decide)⟩
